import Mathlib

/-!
Verification of the `payload-lucide-picker` icon-picker field component
(`src/fields/component/index.tsx`) against its natural-language specification.

The component is a React form-field widget.  Its logic is embedded shallowly:
each event handler becomes a pure Lean function on an explicit state, JS
objects become structures, the module-level icon cache becomes explicit
state passing, and JS strings become Lean `String`s (icon names are ASCII).
JS numbers carry only exact values here (24, 2, 0.5, ...), so they are
embedded as `Rat`.
-/

/-- Persisted icon configuration, the `LucideIconPickerType` value shape:
`{ name, size, color, strokeWidth, absoluteStrokeWidth }`. -/
structure LucideIconPickerType where
  name : String
  size : Rat
  color : String
  strokeWidth : Rat
  absoluteStrokeWidth : Bool
deriving DecidableEq, Repr

/-- Source `DEFAULT_ICON_CONFIG` (index.tsx lines 64-70). -/
def DEFAULT_ICON_CONFIG : LucideIconPickerType :=
  { name := ""
    size := 24
    color := "currentColor"
    strokeWidth := 2
    absoluteStrokeWidth := false }

/-- Effect of `handleIconSelect` (index.tsx lines 183-190) on the persisted
value: `setValue(\x7b ...value, name: iconName \x7d)`. -/
def handleIconSelect (value : LucideIconPickerType) (iconName : String) :
    LucideIconPickerType :=
  { value with name := iconName }

/-- Effect of `handleResetToDefaults` (index.tsx lines 225-231) on the
persisted value: `setValue(\x7b ...DEFAULT_ICON_CONFIG, name: value.name \x7d)`. -/
def handleResetToDefaults (value : LucideIconPickerType) : LucideIconPickerType :=
  { DEFAULT_ICON_CONFIG with name := value.name }

/-- Keys of `LucideIconPickerType`, the first argument of `handleConfigChange`. -/
inductive ConfigKey where
  | name
  | size
  | color
  | strokeWidth
  | absoluteStrokeWidth
deriving DecidableEq, Repr

/-- Value type carried by each configuration key. -/
abbrev KeyType : ConfigKey → Type
  | .name => String
  | .size => Rat
  | .color => String
  | .strokeWidth => Rat
  | .absoluteStrokeWidth => Bool

/-- Effect of `handleConfigChange` (index.tsx lines 193-198) on the persisted
value: `setValue(\x7b ...value, [field]: newValue \x7d)`, computed-key spread. -/
def handleConfigChange (value : LucideIconPickerType) :
    (k : ConfigKey) → KeyType k → LucideIconPickerType
  | .name, v => { value with name := v }
  | .size, v => { value with size := v }
  | .color, v => { value with color := v }
  | .strokeWidth, v => { value with strokeWidth := v }
  | .absoluteStrokeWidth, v => { value with absoluteStrokeWidth := v }

/-- Field projection of a configuration at a key. -/
def getField (value : LucideIconPickerType) : (k : ConfigKey) → KeyType k
  | .name => value.name
  | .size => value.size
  | .color => value.color
  | .strokeWidth => value.strokeWidth
  | .absoluteStrokeWidth => value.absoluteStrokeWidth

/-! ## Collapsed field control rendering

The collapsed control (index.tsx lines 271-285) renders
`value.name ? <Icon name=\x7bvalue.name\x7d .../> : <span>Icon</span>`:
the placeholder branch is taken exactly when `value.name` is falsy
(the empty string).  The icon registry is never consulted here. -/

/-- Outcome of rendering the collapsed field control. -/
inductive CollapsedRender where
  | placeholder
  | icon (name : String)
deriving DecidableEq, Repr

/-- Rendering decision of the collapsed control (index.tsx lines 271-285):
JS string truthiness makes the placeholder appear iff `value.name` is `""`. -/
def renderCollapsedControl (value : LucideIconPickerType) : CollapsedRender :=
  if value.name = "" then .placeholder else .icon value.name

/-- Registry of icon names (`dynamicIconImports` keys).  The registry lives in
the external `lucide-react` package; it is represented here as a list of
names.  A sample with a few real lucide names is used for concrete inputs. -/
def sampleRegistry : List String :=
  ["home", "check", "x", "user", "settings", "search"]

/-! ## Catalog, search filter -/

/-- Character-list prefix test (the inner loop of substring search). -/
def charsStarts : List Char → List Char → Bool
  | [], _ => true
  | _ :: _, [] => false
  | a :: as, b :: bs => a == b && charsStarts as bs

/-- Character-list substring occurrence: JS `hay.includes(needle)` semantics
(the empty needle occurs in every string). -/
def charsOccurs (needle : List Char) : List Char → Bool
  | [] => needle.isEmpty
  | b :: bs => charsStarts needle (b :: bs) || charsOccurs needle bs

/-- JS `String.prototype.toLowerCase`, embedded as character-wise lowering
(icon names and search text are ASCII). -/
def jsToLower (s : String) : String :=
  String.mk (s.data.map Char.toLower)

/-- JS `hay.includes(needle)`. -/
def jsIncludes (hay needle : String) : Bool :=
  charsOccurs needle.data hay.data

/-- Source `filteredIcons` memo (index.tsx lines 147-153):
`if (!debouncedSearch) return allIcons;` then
`allIcons.filter(name => name.toLowerCase().includes(debouncedSearch.toLowerCase()))`.
The only falsy string is `""`. -/
def filteredIcons (allIcons : List String) (debouncedSearch : String) :
    List String :=
  if debouncedSearch = "" then allIcons
  else allIcons.filter fun name =>
    jsIncludes (jsToLower name) (jsToLower debouncedSearch)

/-! ## Pagination -/

/-- Source `ICONS_PER_PAGE` (index.tsx line 118). -/
def ICONS_PER_PAGE : Nat := 60

/-- Source `totalPages` (index.tsx line 155):
`Math.ceil(filteredIcons.length / ICONS_PER_PAGE)`, which on naturals is
`(len + ICONS_PER_PAGE - 1) / ICONS_PER_PAGE`. -/
def totalPages (filtered : List String) : Nat :=
  (filtered.length + ICONS_PER_PAGE - 1) / ICONS_PER_PAGE

/-- Source `paginatedIcons` memo (index.tsx lines 158-163):
`filteredIcons.slice(page * ICONS_PER_PAGE, (page + 1) * ICONS_PER_PAGE)`,
i.e. drop `page * 60` then take `60` (JS `slice` clamps like `drop`/`take`). -/
def paginatedIcons (filtered : List String) (page : Nat) : List String :=
  (filtered.drop (page * ICONS_PER_PAGE)).take ICONS_PER_PAGE

/-! ## Icon resolution cache

The module-level `iconCache` (index.tsx line 103) maps an icon name to the
component produced by `dynamic(dynamicIconImports[name])`.  It is embedded as
an association list from names to handle identifiers, plus a counter that
hands each `dynamic(...)` call a fresh handle, so that "same handle" is
expressible. -/

/-- State of the module-level `iconCache` plus a fresh-handle counter. -/
structure IconCacheState where
  entries : List (String × Nat)
  nextHandle : Nat
deriving DecidableEq, Repr

/-- Lookup in the cache entry list (first match wins, as in a JS record
where each key occurs at most once). -/
def lookupEntries : List (String × Nat) → String → Option Nat
  | [], _ => none
  | (n, h) :: rest, name => if n = name then some h else lookupEntries rest name

/-- JS `iconCache[name]` read (`undefined` becomes `none`). -/
def lookupIcon (c : IconCacheState) (name : String) : Option Nat :=
  lookupEntries c.entries name

/-- Body of the `Icon` component (index.tsx lines 105-113):
`if (!iconCache[name]) iconCache[name] = dynamic(dynamicIconImports[name]);`
then use `iconCache[name]`.  Returns the new cache state, the handle used,
and whether a new `dynamic(...)` load was triggered. -/
def resolveIcon (c : IconCacheState) (name : String) :
    IconCacheState × Nat × Bool :=
  match lookupIcon c name with
  | some h => (c, h, false)
  | none =>
    ({ entries := c.entries ++ [(name, c.nextHandle)]
       nextHandle := c.nextHandle + 1 },
     c.nextHandle, true)

/-- The warm-up names of the preload effect (index.tsx line 167). -/
def POPULAR_ICONS : List String :=
  ["check", "x", "user", "settings", "home", "search"]

/-- One iteration of the preload loop (index.tsx lines 170-174):
`if (!iconCache[name]) iconCache[name] = dynamic(...)`. -/
def preloadStep (acc : IconCacheState) (n : String) : IconCacheState :=
  if (lookupIcon acc n).isSome then acc
  else { entries := acc.entries ++ [(n, acc.nextHandle)]
         nextHandle := acc.nextHandle + 1 }

/-- The preload effect (index.tsx lines 166-175): filter the popular names by
registry membership (`name in dynamicIconImports`), then run the guarded
insertion for each. -/
def preloadIcons (registry : List String) (c : IconCacheState) : IconCacheState :=
  (POPULAR_ICONS.filter fun n => registry.contains n).foldl preloadStep c

/-! ## Reset-confirmation interaction

Transient UI state relevant to the reset flow, and the click events of the
four buttons that touch it.  A button's handler can only run while the button
is rendered: the panel buttons (index.tsx lines 588-624) exist iff
`showConfig`, the dialog buttons (lines 659-735) iff `showResetConfirm`. -/

/-- Reset-flow UI state: the persisted config plus the two open/closed flags. -/
structure ResetUIState where
  config : LucideIconPickerType
  showConfig : Bool
  showResetConfirm : Bool
deriving DecidableEq, Repr

/-- Click events of the four reset-related buttons. -/
inductive ResetEvent where
  | panelRestoreDefaults
  | panelResetToDefaults
  | dialogCancel
  | dialogConfirm
deriving DecidableEq, Repr

/-- Whether a given click event invokes `handleResetToDefaults` from the
given state (the handler runs only while its button is rendered).
`panelResetToDefaults` is the panel button with class
`icon-config-panel__confirm` (index.tsx lines 608-623), whose `onClick` is
`handleResetToDefaults`; `dialogConfirm` is the dialog button at lines
720-735 with the same `onClick`. -/
def invokesReset (s : ResetUIState) : ResetEvent → Bool
  | .panelResetToDefaults => s.showConfig
  | .dialogConfirm => s.showResetConfirm
  | _ => false

/-- Transition of the reset-flow state on each button click.
`panelRestoreDefaults` is the button at lines 588-607
(`onClick=\x7b() => setShowResetConfirm(true)\x7d`); `dialogCancel` covers the
dialog's Cancel and X buttons (`setShowResetConfirm(false)`); the two
reset-invoking buttons run `handleResetToDefaults`, which writes the reset
configuration and sets `showResetConfirm` to `false`. -/
def resetStep (s : ResetUIState) : ResetEvent → ResetUIState
  | .panelRestoreDefaults =>
    if s.showConfig then { s with showResetConfirm := true } else s
  | .panelResetToDefaults =>
    if s.showConfig then
      { s with config := handleResetToDefaults s.config, showResetConfirm := false }
    else s
  | .dialogCancel =>
    if s.showResetConfirm then { s with showResetConfirm := false } else s
  | .dialogConfirm =>
    if s.showResetConfirm then
      { s with config := handleResetToDefaults s.config, showResetConfirm := false }
    else s

/-! ## Outside-click dismissal

`handleClickOutside` (index.tsx lines 201-222) runs on every `mousedown`:
it closes the picker and clears the search only when `fieldIsFocused` holds,
`document.querySelector` finds both `.icon-picker-modal` and
`.icon-select-field`, and the event target is contained in neither. -/

/-- Picker open/search state touched by the outside-click handler. -/
structure PickerFocusState where
  fieldIsFocused : Bool
  search : String
deriving DecidableEq, Repr

/-- DOM facts the outside-click handler reads: whether each `querySelector`
found an element, and whether the event target lies inside each. -/
structure OutsideClickDom where
  modalFound : Bool
  fieldFound : Bool
  targetInModal : Bool
  targetInField : Bool
deriving DecidableEq, Repr

/-- `handleClickOutside` (index.tsx lines 202-216): the state changes only
when the full guard
`fieldIsFocused && modalElement && fieldElement && !contains && !contains`
holds. -/
def handleClickOutside (st : PickerFocusState) (dom : OutsideClickDom) :
    PickerFocusState :=
  if st.fieldIsFocused && dom.modalFound && dom.fieldFound
      && !dom.targetInModal && !dom.targetInField then
    { st with fieldIsFocused := false, search := "" }
  else st

/-- Class tokens of every `className` attribute appearing in the component's
rendered output (transcribed from index.tsx: lines 234, 235, 237, 590, 610).
No other element in the file carries a `className`. -/
def componentClassTokens : List (List String) :=
  [["w-full", "field-type", "text"],
   ["field-label"],
   ["required"],
   ["icon-config-panel__reset"],
   ["icon-config-panel__confirm"]]

/-- Whether `document.querySelector('.' + cls)`, over a document containing
exactly this component's rendered elements, finds an element: true iff some
rendered `className` contains `cls` as a token. -/
def querySelectorClassFound (cls : String) : Bool :=
  componentClassTokens.any fun toks => toks.contains cls

/-! ## Closing the picker and page state

Both closing paths that exist in the rendered output — `handleIconSelect`
(lines 183-190) and the dialog close button (lines 787-791) — run
`setFieldIsFocused(false); setSearch('')` and do not touch `page`.  The page
only returns to 0 through the effect at lines 178-180, which fires when
`debouncedSearch` changes; `debouncedSearch` eventually settles to `search`
through the 300ms debounce (lines 73-87). -/

/-- Picker state for the close/pagination interaction. -/
structure SearchPageState where
  fieldIsFocused : Bool
  search : String
  debouncedSearch : String
  page : Nat
deriving DecidableEq, Repr

/-- State change common to both closing paths:
`setFieldIsFocused(false); setSearch('')` (index.tsx lines 188-189 and
789-790).  `page` is not written. -/
def closePicker (s : SearchPageState) : SearchPageState :=
  { s with fieldIsFocused := false, search := "" }

/-- Debounce settling plus the page-reset effect (index.tsx lines 73-87 and
178-180): once input is quiescent, `debouncedSearch` becomes `search`, and
the effect keyed on `debouncedSearch` sets the page to 0 iff that value
actually changed. -/
def settleDebounce (s : SearchPageState) : SearchPageState :=
  if s.debouncedSearch = s.search then s
  else { s with debouncedSearch := s.search, page := 0 }

/-! ## Theorems -/

/-- C1: for every current effective configuration and every icon name `n`,
`selectIcon(n)` (source `handleIconSelect`) writes a complete configuration
whose `name` equals `n` while `size`, `color`, `strokeWidth` and
`absoluteStrokeWidth` equal those of the prior effective value: only `name`
changes. -/
theorem handleIconSelect_only_changes_name
    (value : LucideIconPickerType) (n : String) :
    (handleIconSelect value n).name = n
    ∧ (handleIconSelect value n).size = value.size
    ∧ (handleIconSelect value n).color = value.color
    ∧ (handleIconSelect value n).strokeWidth = value.strokeWidth
    ∧ (handleIconSelect value n).absoluteStrokeWidth = value.absoluteStrokeWidth :=
  ⟨rfl, rfl, rfl, rfl, rfl⟩

/-- C2: for every current effective configuration, `resetToDefaults()`
(source `handleResetToDefaults`) writes the configuration with the prior
`name` and every other field restored to its default
(`size 24`, `color "currentColor"`, `strokeWidth 2`,
`absoluteStrokeWidth false`). -/
theorem handleResetToDefaults_preserves_name_restores_defaults
    (value : LucideIconPickerType) :
    (handleResetToDefaults value).name = value.name
    ∧ (handleResetToDefaults value).size = 24
    ∧ (handleResetToDefaults value).color = "currentColor"
    ∧ (handleResetToDefaults value).strokeWidth = 2
    ∧ (handleResetToDefaults value).absoluteStrokeWidth = false :=
  ⟨rfl, rfl, rfl, rfl, rfl⟩

/-- C3: for every current effective configuration, configuration field key
`k` and new value `v`, `setConfigField(k, v)` (source `handleConfigChange`)
writes a configuration whose field `k` equals `v` and whose every other
field is unchanged. -/
theorem handleConfigChange_frame
    (value : LucideIconPickerType) (k : ConfigKey) (v : KeyType k) :
    getField (handleConfigChange value k v) k = v
    ∧ ∀ k', k' ≠ k →
        getField (handleConfigChange value k v) k' = getField value k' := by
  constructor
  · cases k <;> rfl
  · intro k' hne
    cases k <;> cases k' <;> first | exact absurd rfl hne | rfl

/-- Witness for C3 at a concrete input: setting `size` to 40 on the default
configuration leaves the `color` field untouched. -/
theorem handleConfigChange_frame_witness :
    (ConfigKey.color ≠ ConfigKey.size)
    ∧ getField (handleConfigChange DEFAULT_ICON_CONFIG ConfigKey.size 40)
        ConfigKey.color = getField DEFAULT_ICON_CONFIG ConfigKey.color :=
  ⟨by decide,
   (handleConfigChange_frame DEFAULT_ICON_CONFIG ConfigKey.size 40).2
     ConfigKey.color (by decide)⟩

/-- A stored configuration whose name is non-empty yet absent from the
registry (the name below is not a lucide icon name). -/
def strayConfig : LucideIconPickerType :=
  { name := "zzz-not-an-icon"
    size := 24
    color := "currentColor"
    strokeWidth := 2
    absoluteStrokeWidth := false }

/-- C4 counterexample: the claim "every stored configuration whose name is
absent from the registry renders the placeholder" is false: the collapsed
control checks only string truthiness of `value.name`, never registry
membership, so a non-empty unregistered name renders the icon branch, not
the placeholder. -/
theorem renderCollapsed_unregistered_not_placeholder :
    (strayConfig.name ∈ sampleRegistry → False)
    ∧ renderCollapsedControl strayConfig ≠ CollapsedRender.placeholder := by
  exact ⟨by decide, by decide⟩

/-- C4 amended: rendering the collapsed field control produces the
placeholder state iff the stored name is the empty string; a configuration
whose name is non-empty (registered or not) renders the icon branch carrying
that name. -/
theorem renderCollapsed_placeholder_iff_empty_name
    (value : LucideIconPickerType) :
    renderCollapsedControl value = CollapsedRender.placeholder
      ↔ value.name = "" := by
  unfold renderCollapsedControl
  split
  · simp_all
  · simp_all

/-- The empty needle occurs in every character list. -/
lemma charsOccurs_nil (hay : List Char) : charsOccurs [] hay = true := by
  induction hay with
  | nil => rfl
  | cons b bs ih => simp [charsOccurs, charsStarts, ih]

/-- JS `includes` with the lowercased empty search string is always true. -/
lemma jsIncludes_toLower_empty (hay : String) :
    jsIncludes hay (jsToLower "") = true := by
  have hdata : (jsToLower "").data = [] := rfl
  simp [jsIncludes, hdata, charsOccurs_nil]

/-- C5: for every debounced search string `s`, a catalog name appears in the
filtered list iff `lowercase(name)` contains `lowercase(s)` as a substring;
for the empty search string the filtered list is the full catalog in its
original order. -/
theorem filteredIcons_membership (catalog : List String) (s name : String)
    (h : name ∈ catalog) :
    (name ∈ filteredIcons catalog s
      ↔ jsIncludes (jsToLower name) (jsToLower s) = true)
    ∧ filteredIcons catalog "" = catalog := by
  refine ⟨?_, rfl⟩
  by_cases hs : s = ""
  · subst hs
    simp [filteredIcons, h, jsIncludes_toLower_empty]
  · simp [filteredIcons, hs, List.mem_filter, h]

/-- Sample catalog for concrete evaluation of the search filter. -/
def sampleCatalog : List String := ["house", "home"]

/-- Witness for C5 at a concrete input: the case-insensitive search "OM"
keeps the catalog name "home". -/
theorem filteredIcons_membership_witness :
    ("home" ∈ sampleCatalog)
    ∧ (("home" ∈ filteredIcons sampleCatalog "OM")
        ↔ jsIncludes (jsToLower "home") (jsToLower "OM") = true) :=
  ⟨by decide, (filteredIcons_membership sampleCatalog "OM" "home" (by decide)).1⟩

/-- Concatenating the first `k` fixed-size pages of a list of length at most
`k * ICONS_PER_PAGE` reproduces the list. -/
lemma pages_flatten (k : Nat) :
    ∀ l : List String, l.length ≤ k * ICONS_PER_PAGE →
      (List.flatten ((List.range k).map fun p =>
        (l.drop (p * ICONS_PER_PAGE)).take ICONS_PER_PAGE)) = l := by
  induction k with
  | zero =>
    intro l h
    simp only [Nat.zero_mul, Nat.le_zero] at h
    simp [List.eq_nil_of_length_eq_zero h]
  | succ k ih =>
    intro l h
    rw [List.range_succ_eq_map, List.map_cons, List.flatten_cons, List.map_map]
    have hfun : ((fun p => (l.drop (p * ICONS_PER_PAGE)).take ICONS_PER_PAGE)
          ∘ Nat.succ)
        = fun p => (((l.drop ICONS_PER_PAGE).drop (p * ICONS_PER_PAGE)).take
            ICONS_PER_PAGE) := by
      funext p
      simp only [Function.comp_apply, List.drop_drop]
      rw [Nat.succ_mul, Nat.add_comm]
    rw [hfun, ih (l.drop ICONS_PER_PAGE)
      (by simp only [List.length_drop, ICONS_PER_PAGE] at *; omega)]
    simp [List.take_append_drop ICONS_PER_PAGE l]

/-- C6: pagination is total: with page size 60 and page count
`ceil(filteredCount / 60)`, concatenating page 0 through the last page in
order reproduces the filtered list exactly (hence each element appears
once), and every page before the last holds exactly 60 entries. -/
theorem pagination_total (catalog : List String) (s : String) :
    (List.flatten ((List.range (totalPages (filteredIcons catalog s))).map
        fun p => paginatedIcons (filteredIcons catalog s) p))
      = filteredIcons catalog s
    ∧ ∀ p, p + 1 < totalPages (filteredIcons catalog s) →
        (paginatedIcons (filteredIcons catalog s) p).length = ICONS_PER_PAGE := by
  constructor
  · exact pages_flatten (totalPages (filteredIcons catalog s))
      (filteredIcons catalog s)
      (by simp only [totalPages, ICONS_PER_PAGE]; omega)
  · intro p hp
    simp only [totalPages, ICONS_PER_PAGE] at hp
    have hlen : ICONS_PER_PAGE ≤
        (filteredIcons catalog s).length - p * ICONS_PER_PAGE := by
      simp only [ICONS_PER_PAGE]
      omega
    simp [paginatedIcons, List.length_take, List.length_drop,
      Nat.min_eq_left hlen]

/-- Catalog of 130 names, giving three pages after filtering with the empty
search string. -/
def catalog130 : List String := List.replicate 130 "activity"

/-- The 130-name catalog paginates to three pages under the empty search. -/
lemma catalog130_totalPages : totalPages (filteredIcons catalog130 "") = 3 := by
  simp [catalog130, filteredIcons, totalPages, ICONS_PER_PAGE]

/-- Witness for C6 at a concrete input: with 130 filtered names there are
three pages and page 1 (not the last) holds exactly 60 entries. -/
theorem pagination_total_witness :
    (1 + 1 < totalPages (filteredIcons catalog130 ""))
    ∧ (paginatedIcons (filteredIcons catalog130 "") 1).length = ICONS_PER_PAGE :=
  ⟨by rw [catalog130_totalPages]; norm_num,
   (pagination_total catalog130 "").2 1 (by rw [catalog130_totalPages]; norm_num)⟩

/-- Reset-flow state with the configuration panel open and no reset
confirmation pending. -/
def panelOpenState : ResetUIState :=
  { config := { name := "home"
                size := 64
                color := "#ff0000"
                strokeWidth := 3
                absoluteStrokeWidth := true }
    showConfig := true
    showResetConfirm := false }

/-- C7 counterexample: the claim "resetToDefaults is only ever invoked while
a reset confirmation is pending" is false: with the configuration panel open
and no confirmation pending, the panel's own `icon-config-panel__confirm`
button invokes `handleResetToDefaults` directly and rewrites the
configuration. -/
theorem reset_invoked_without_pending_confirm :
    invokesReset panelOpenState ResetEvent.panelResetToDefaults = true
    ∧ panelOpenState.showResetConfirm = false
    ∧ (resetStep panelOpenState ResetEvent.panelResetToDefaults).config
        = handleResetToDefaults panelOpenState.config :=
  ⟨rfl, rfl, rfl⟩

/-- C7 amended: `resetToDefaults` is invoked from two buttons: the
confirmation dialog's confirm button, which requires a pending confirmation,
applies the reset and closes the confirmation; and the configuration panel's
own reset button, enabled whenever the panel is open and not gated by a
pending confirmation.  Cancelling the confirmation leaves the configuration
value unchanged and only closes the dialog. -/
theorem reset_confirm_flow (s : ResetUIState) :
    (invokesReset s ResetEvent.dialogConfirm = true → s.showResetConfirm = true)
    ∧ (resetStep s ResetEvent.dialogCancel).config = s.config
    ∧ (s.showResetConfirm = true →
        resetStep s ResetEvent.dialogConfirm
          = { s with config := handleResetToDefaults s.config
                     showResetConfirm := false })
    ∧ (s.showConfig = true →
        invokesReset s ResetEvent.panelResetToDefaults = true) := by
  refine ⟨?_, ?_, ?_, ?_⟩
  · intro h
    simpa [invokesReset] using h
  · cases h : s.showResetConfirm <;> simp [resetStep, h]
  · intro h
    simp [resetStep, h]
  · intro h
    simpa [invokesReset] using h

/-- Reset-flow state with the confirmation dialog pending. -/
def confirmPendingState : ResetUIState :=
  { config := { name := "home"
                size := 64
                color := "#ff0000"
                strokeWidth := 3
                absoluteStrokeWidth := true }
    showConfig := true
    showResetConfirm := true }

/-- Witness for C7's amended flow at a concrete input: confirming a pending
confirmation resets the configuration and closes the dialog. -/
theorem reset_confirm_flow_witness :
    confirmPendingState.showResetConfirm = true
    ∧ resetStep confirmPendingState ResetEvent.dialogConfirm
        = { confirmPendingState with
              config := handleResetToDefaults confirmPendingState.config
              showResetConfirm := false } :=
  ⟨rfl, (reset_confirm_flow confirmPendingState).2.2.1 rfl⟩

/-- C8: the outside-click dismissal is dead code in this component: neither
`.icon-picker-modal` nor `.icon-select-field` matches any class rendered by
the component, so both `querySelector` calls return null, the guard in
`handleClickOutside` never holds, and a mousedown outside the open picker
leaves the picker open and the search text intact — contradicting the code's
own comment "Close modal when clicking outside". -/
theorem handleClickOutside_never_fires :
    querySelectorClassFound "icon-picker-modal" = false
    ∧ querySelectorClassFound "icon-select-field" = false
    ∧ handleClickOutside
        { fieldIsFocused := true, search := "ho" }
        { modalFound := querySelectorClassFound "icon-picker-modal"
          fieldFound := querySelectorClassFound "icon-select-field"
          targetInModal := false
          targetInField := false }
        = { fieldIsFocused := true, search := "ho" } := by
  exact ⟨by decide, by decide, by decide⟩

/-- Picker state closed with empty search on page 2, as left by paginating
without searching and then closing. -/
def staleCloseState : SearchPageState :=
  { fieldIsFocused := true
    search := ""
    debouncedSearch := ""
    page := 2 }

/-- C9: closing the picker does not reset the page index: both closing paths
only run `setFieldIsFocused(false); setSearch('')`, and the page-reset
effect fires only when `debouncedSearch` changes.  Closing from page 2 with
an already-empty search leaves the page at 2 for the next open, against the
claim that every close resets the page to 0. -/
theorem closePicker_leaves_stale_page :
    (settleDebounce (closePicker staleCloseState)).fieldIsFocused = false
    ∧ (settleDebounce (closePicker staleCloseState)).search = ""
    ∧ (settleDebounce (closePicker staleCloseState)).page = 2 :=
  ⟨rfl, rfl, rfl⟩

/-- Appending an entry for a fresh key preserves a present lookup. -/
lemma lookupEntries_append_of_some (es : List (String × Nat)) (l : List (String × Nat))
    (m : String) (h : Nat) (hm : lookupEntries es m = some h) :
    lookupEntries (es ++ l) m = some h := by
  induction es with
  | nil => simp [lookupEntries] at hm
  | cons e rest ih =>
    obtain ⟨n, k⟩ := e
    by_cases hn : n = m
    · simp [lookupEntries, hn] at hm ⊢
      exact hm
    · simp [lookupEntries, hn] at hm ⊢
      exact ih hm

/-- Appending an entry for an absent key makes its lookup return it. -/
lemma lookupEntries_append_of_none (es : List (String × Nat))
    (m : String) (k : Nat) (hm : lookupEntries es m = none) :
    lookupEntries (es ++ [(m, k)]) m = some k := by
  induction es with
  | nil => simp [lookupEntries]
  | cons e rest ih =>
    obtain ⟨n, h⟩ := e
    by_cases hn : n = m
    · simp [lookupEntries, hn] at hm
    · simp [lookupEntries, hn] at hm ⊢
      exact ih hm

/-- A preload step never removes or replaces an existing cache entry. -/
lemma preloadStep_preserves (acc : IconCacheState) (n : String)
    (m : String) (h : Nat) (hm : lookupIcon acc m = some h) :
    lookupIcon (preloadStep acc n) m = some h := by
  unfold preloadStep
  split
  · exact hm
  · exact lookupEntries_append_of_some acc.entries _ m h hm

/-- The preload fold never removes or replaces an existing cache entry. -/
lemma preload_foldl_preserves (names : List String) :
    ∀ acc : IconCacheState, ∀ m h, lookupIcon acc m = some h →
      lookupIcon (names.foldl preloadStep acc) m = some h := by
  induction names with
  | nil => intro acc m h hm; exact hm
  | cons n rest ih =>
    intro acc m h hm
    exact ih (preloadStep acc n) m h (preloadStep_preserves acc n m h hm)

/-- C10: the icon resolution cache is populated at most once per name: a
resolve for a cached name returns the stored handle with no new load and no
cache change; the first resolve for a name stores a handle keyed by that
name and triggers the one load; resolving again right after always yields
the same handle with no load; resolving one name never replaces another
name's entry; and the warm-up preload never overwrites an existing entry. -/
theorem iconCache_populated_once (c : IconCacheState) (name : String) :
    (∀ h, lookupIcon c name = some h → resolveIcon c name = (c, h, false))
    ∧ (lookupIcon c name = none →
        lookupIcon (resolveIcon c name).1 name = some (resolveIcon c name).2.1
        ∧ (resolveIcon c name).2.2 = true)
    ∧ resolveIcon (resolveIcon c name).1 name
        = ((resolveIcon c name).1, (resolveIcon c name).2.1, false)
    ∧ (∀ m h, lookupIcon c m = some h →
        lookupIcon (resolveIcon c name).1 m = some h)
    ∧ (∀ registry m h, lookupIcon c m = some h →
        lookupIcon (preloadIcons registry c) m = some h) := by
  refine ⟨?_, ?_, ?_, ?_, ?_⟩
  · intro h hm
    simp [resolveIcon, hm]
  · intro hm
    refine ⟨?_, ?_⟩
    · simp only [resolveIcon, hm]
      exact lookupEntries_append_of_none c.entries name c.nextHandle hm
    · simp [resolveIcon, hm]
  · cases hm : lookupIcon c name with
    | some h => simp [resolveIcon, hm]
    | none =>
      simp only [resolveIcon, hm]
      have : lookupIcon
          { entries := c.entries ++ [(name, c.nextHandle)]
            nextHandle := c.nextHandle + 1 } name = some c.nextHandle :=
        lookupEntries_append_of_none c.entries name c.nextHandle hm
      simp [resolveIcon, this]
  · intro m h hm
    cases hn : lookupIcon c name with
    | some k => simp [resolveIcon, hn, hm]
    | none =>
      simp only [resolveIcon, hn]
      exact lookupEntries_append_of_some c.entries _ m h hm
  · intro registry m h hm
    exact preload_foldl_preserves _ c m h hm

/-- A cache already holding an entry for "home". -/
def cacheWithHome : IconCacheState :=
  { entries := [("home", 0)], nextHandle := 1 }

/-- Witness for C10 at a concrete input: resolving "home" against a cache
that already holds it returns the stored handle, triggers no load, and
leaves the cache unchanged. -/
theorem iconCache_populated_once_witness :
    lookupIcon cacheWithHome "home" = some 0
    ∧ resolveIcon cacheWithHome "home" = (cacheWithHome, 0, false) :=
  ⟨by decide, (iconCache_populated_once cacheWithHome "home").1 0 (by decide)⟩
